import Mathlib

/-!
# Verification of the Bitsacco WhatsApp bot conversation engine

A shallow embedding, in Lean 4, of the session / dispatch core of the
`bitsacco-bot` repository, together with theorems settling the spec claims.

Conventions used throughout:

* Python `datetime` / `time.time()` values are modelled as rational seconds
  (`ℚ`); `timedelta` constants become rational second counts.
* Python dicts keyed by strings are modelled as association lists whose
  update operation removes the old binding before inserting the new one.
* Upstream HTTP/API responses are oracles passed to the embedded functions
  as explicit arguments: one value per call the source makes.
* Python dict truthiness matters in `user_service.py` (`if is_valid:`,
  `if not user_data:`, `if otp_sent:` applied to dict-valued API results);
  each embedded response type therefore carries a `truthy` function that is
  constantly `true`, because every dict built by `bitsacco_api.py` is
  non-empty and a non-empty Python dict is truthy.
* Outbound WhatsApp sends and user-facing return strings are modelled as
  inductive message tags carrying the dynamic parts of the source string.
-/

namespace Bitsacco

/-! ## Phone number normalization

Three implementations exist in the source:
`WhatsAppService._normalize_phone_number` (whatsapp_service.py lines 743-756),
`UserService._clean_phone_number` (user_service.py lines 292-305), and
`SecurityService.sanitize_phone_number` (security_service.py lines 162-179).
-/

/-- `"".join(filter(str.isdigit, s))` for ASCII input. -/
def digitsOnly (s : String) : String :=
  String.mk (s.toList.filter Char.isDigit)

/-- Python `str.startswith`, computed on character lists so the kernel can
evaluate it. -/
def strStartsWith (s pre : String) : Bool :=
  pre.toList.isPrefixOf s.toList

/-- Python slicing `s[n:]`, computed on character lists. -/
def strDrop (s : String) (n : ℕ) : String :=
  String.mk (s.toList.drop n)

/-- `WhatsAppService._normalize_phone_number`. -/
def normalizePhoneNumber (phone : String) : String :=
  let digits := digitsOnly phone
  if strStartsWith digits "254" then "+" ++ digits
  else if strStartsWith digits "0" ∧ digits.length = 10 then "+254" ++ strDrop digits 1
  else if digits.length = 9 then "+254" ++ digits
  else "+" ++ digits

/-- `UserService._clean_phone_number` (same branch structure, written in a
separate module of the source). -/
def cleanPhoneNumber (phone : String) : String :=
  let digits := digitsOnly phone
  if strStartsWith digits "254" then "+" ++ digits
  else if strStartsWith digits "0" ∧ digits.length = 10 then "+254" ++ strDrop digits 1
  else if digits.length = 9 then "+254" ++ digits
  else "+" ++ digits

/-- `SecurityService.sanitize_phone_number`: rejects digit strings shorter
than 9 or longer than 15 characters, then formats as the other two do. -/
def sanitizePhoneNumber (phone : String) : Option String :=
  let digits := digitsOnly phone
  if digits.length < 9 ∨ digits.length > 15 then none
  else if strStartsWith digits "254" then some ("+" ++ digits)
  else if strStartsWith digits "0" ∧ digits.length = 10 then some ("+254" ++ strDrop digits 1)
  else if digits.length = 9 then some ("+254" ++ digits)
  else some ("+" ++ digits)

/-! ## Rate limiting (`SecurityService`, security_service.py)

`SecurityService.__init__` configures three policies in `self.rate_limits`;
`_check_rate_limit` (lines 226-255) prunes the per-key timestamp window and
then decides.  Wall-clock values from `time.time()` are rationals here.
-/

/-- One entry of the `self.rate_limits` dict: `requests` per `window` seconds. -/
structure RatePolicy where
  requests : ℕ
  window : ℚ
deriving Repr, DecidableEq

/-- The `rate_limits` table built in `SecurityService.__init__` (lines 60-73). -/
def rateLimits (request_type : String) : Option RatePolicy :=
  if request_type = "authentication" then some ⟨5, 300⟩
  else if request_type = "api_calls" then some ⟨100, 60⟩
  else if request_type = "otp_requests" then some ⟨3, 600⟩
  else none

/-- The per-key core of `_check_rate_limit`: drop timestamps at or before
`now - window` (the source keeps `timestamp > window_start`), then deny if the
remaining count has reached `maxReq`, else record `now` and allow. -/
def rateStep (maxReq : ℕ) (window : ℚ) (ts : List ℚ) (now : ℚ) : Bool × List ℚ :=
  let pruned := ts.filter (fun x => decide (now - window < x))
  if maxReq ≤ pruned.length then (false, pruned)
  else (true, pruned ++ [now])

/-- The `self.rate_limit_store` dict, keyed by `"request_type:identifier"`. -/
abbrev RateStore := List (String × List ℚ)

/-- Dict read with `[]` default (the `if key not in ...: ... = []` init). -/
def storeGet (s : RateStore) (k : String) : List ℚ :=
  (s.lookup k).getD []

/-- Dict write: replace any existing binding for `k`. -/
def storeSet (s : RateStore) (k : String) (v : List ℚ) : RateStore :=
  (k, v) :: s.eraseP (fun p => p.1 == k)

/-- `SecurityService._check_rate_limit`: unconfigured request types pass
unconditionally; configured ones go through `rateStep` on their key. -/
def checkRateLimit (store : RateStore) (request_type identifier : String)
    (now : ℚ) : Bool × RateStore :=
  match rateLimits request_type with
  | none => (true, store)
  | some cfg =>
      let key := request_type ++ ":" ++ identifier
      let r := rateStep cfg.requests cfg.window (storeGet store key) now
      (r.1, storeSet store key r.2)

/-- Repeated `rateStep` calls for one key, returning each call's time and
decision. -/
def rateRun (m : ℕ) (w : ℚ) (store : List ℚ) : List ℚ → List (ℚ × Bool)
  | [] => []
  | t :: rest =>
      let r := rateStep m w store t
      (t, r.1) :: rateRun m w r.2 rest

/-- Number of allowed calls whose time lies in the window `(a, a + w]`. -/
def allowedInWindow (a w : ℚ) : List (ℚ × Bool) → ℕ
  | [] => 0
  | (t, d) :: rest =>
      (if d ∧ a < t ∧ t ≤ a + w then 1 else 0) + allowedInWindow a w rest

/-! ## API client retry loop (`BitsaccoAPIClient._make_request`,
bitsacco_api.py lines 308-410)

The loop `for attempt in range(self.max_retries + 1)` issues one HTTP request
per iteration.  Each iteration's outcome is supplied by the oracle
`resp : ℕ → HTTPOutcome` (indexed by attempt number).  Status handling:
200/201 return the JSON payload, 204 returns an empty object, 404 returns
`None` (the typed not-found result), 401/403 raise `HTTPStatusError`
("Authentication failed") which the outer `except Exception` re-raises,
5xx sleeps `retry_delay * 2 ** attempt` and retries while `attempt <
max_retries` and otherwise calls `raise_for_status()`; any other status hits
the final `response.raise_for_status()`, which raises for codes ≥ 400 and is
a no-op otherwise (so such an iteration falls through and the loop
continues without sleeping).  Timeouts and network errors retry with the
same backoff and re-raise once retries are exhausted.
-/

/-- Outcome of one HTTP attempt. -/
inductive HTTPOutcome where
  | status (code : ℕ) (payload : String)
  | timedOut
  | netFailed
deriving Repr, DecidableEq

/-- The exceptions `_make_request` can propagate. -/
inductive ApiFailure where
  | authFailed
  | httpStatus (code : ℕ)
  | requestTimeout
  | networkDown
deriving Repr, DecidableEq

/-- Observable result of `_make_request`: the returned value or raised
exception, the number of attempts performed, and the sleeps taken between
attempts (in seconds). -/
structure RequestTrace where
  result : Except ApiFailure (Option String)
  attempts : ℕ
  sleeps : List ℚ
deriving Repr

/-- The body of the attempt loop; `attempt` is the current index, `rem` the
number of loop iterations left, `sleeps` the backoff sleeps so far. -/
def makeRequestAux (resp : ℕ → HTTPOutcome) (maxRetries : ℕ) (baseDelay : ℚ) :
    ℕ → ℕ → List ℚ → RequestTrace
  | attempt, 0, sleeps => ⟨Except.ok none, attempt, sleeps⟩
  | attempt, rem + 1, sleeps =>
      match resp attempt with
      | .status code payload =>
          if code = 200 ∨ code = 201 then ⟨Except.ok (some payload), attempt + 1, sleeps⟩
          else if code = 204 then ⟨Except.ok (some ""), attempt + 1, sleeps⟩
          else if code = 404 then ⟨Except.ok none, attempt + 1, sleeps⟩
          else if code = 401 ∨ code = 403 then
            ⟨Except.error .authFailed, attempt + 1, sleeps⟩
          else if 500 ≤ code then
            if attempt < maxRetries then
              makeRequestAux resp maxRetries baseDelay (attempt + 1) rem
                (sleeps ++ [baseDelay * 2 ^ attempt])
            else ⟨Except.error (.httpStatus code), attempt + 1, sleeps⟩
          else if 400 ≤ code then ⟨Except.error (.httpStatus code), attempt + 1, sleeps⟩
          else makeRequestAux resp maxRetries baseDelay (attempt + 1) rem sleeps
      | .timedOut =>
          if attempt < maxRetries then
            makeRequestAux resp maxRetries baseDelay (attempt + 1) rem
              (sleeps ++ [baseDelay * 2 ^ attempt])
          else ⟨Except.error .requestTimeout, attempt + 1, sleeps⟩
      | .netFailed =>
          if attempt < maxRetries then
            makeRequestAux resp maxRetries baseDelay (attempt + 1) rem
              (sleeps ++ [baseDelay * 2 ^ attempt])
          else ⟨Except.error .networkDown, attempt + 1, sleeps⟩

/-- `BitsaccoAPIClient._make_request`; the client is constructed with
`max_retries = 3` and `retry_delay = 1.0`. -/
def makeRequest (resp : ℕ → HTTPOutcome) (maxRetries : ℕ) (baseDelay : ℚ) :
    RequestTrace :=
  makeRequestAux resp maxRetries baseDelay 0 (maxRetries + 1) []

/-! ## User sessions and the user service
(models/user.py, user_service.py)

`UserService` keeps `self.user_sessions : Dict[str, UserSession]`, with
`session_timeout = timedelta(hours=24)` and `otp_timeout =
timedelta(minutes=5)`.
-/

/-- `UserState` from models/user.py (the enum used by `UserSession`). -/
inductive UserState where
  | initial
  | waitingForOtp
  | awaitingPhone
  | awaitingOtp
  | authenticated
  | processing
  | error
deriving Repr, DecidableEq

/-- The `UserSession` dataclass fields the services read or write
(`context_data` is never consulted by the embedded code paths and is
omitted). -/
structure UserSession where
  user_id : String
  current_state : UserState
  created_at : ℚ
  last_activity : ℚ
  phone_number : Option String := none
  bitsacco_user_id : Option String := none
  conversation_history : List String := []
  is_authenticated : Bool := false
  otp_sent_at : Option ℚ := none
  first_name : Option String := none
  last_name : Option String := none
deriving Repr, DecidableEq

/-- `self.user_sessions`, keyed by cleaned phone number. -/
abbrev SessionStore := List (String × UserSession)

def sessionsGet (st : SessionStore) (k : String) : Option UserSession :=
  st.lookup k

def sessionsSet (st : SessionStore) (k : String) (s : UserSession) : SessionStore :=
  (k, s) :: st.eraseP (fun p => p.1 == k)

def sessionsDel (st : SessionStore) (k : String) : SessionStore :=
  st.eraseP (fun p => p.1 == k)

/-- `timedelta(hours=24)` in seconds. -/
def sessionTimeout : ℚ := 86400

/-- `timedelta(minutes=5)` in seconds. -/
def otpTimeout : ℚ := 300

/-- `UserService._is_session_expired`: age strictly above the timeout.  (The
`if not session.last_activity` guard in the source can only fire on `None`;
`datetime` values are always truthy, and every constructed session carries a
timestamp, so the guard is not part of the embedding.) -/
def isSessionExpired (now : ℚ) (s : UserSession) : Bool :=
  decide (sessionTimeout < now - s.last_activity)

/-- The `UserSession(...)` constructor call in `get_or_create_session`:
state `INITIAL`, both timestamps `now`, every other field at its default. -/
def freshSession (p : String) (now : ℚ) : UserSession :=
  { user_id := p, current_state := .initial, created_at := now,
    last_activity := now, phone_number := some p }

/-- `UserService.get_or_create_session`: clean the phone number, return a
live stored session, evict an expired one and store a fresh `INITIAL`
session in its place. -/
def getOrCreateSession (now : ℚ) (st : SessionStore) (phone : String) :
    UserSession × SessionStore :=
  let p := cleanPhoneNumber phone
  match sessionsGet st p with
  | some s =>
      if isSessionExpired now s then
        (freshSession p now, sessionsSet (sessionsDel st p) p (freshSession p now))
      else (s, st)
  | none => (freshSession p now, sessionsSet st p (freshSession p now))

/-- `UserService.update_session`: stamp `last_activity` and store the session
under its phone number (when present). -/
def updateSession (now : ℚ) (st : SessionStore) (s : UserSession) : SessionStore :=
  let s1 := { s with last_activity := now }
  match s1.phone_number with
  | some p => sessionsSet st p s1
  | none => st

/-! ### Upstream API responses (bitsacco_api.py)

Every response `BitsaccoAPIClient` hands back to its callers is a non-empty
Python dict; a non-empty dict is truthy, so each model below carries a
`truthy` function that is constantly `true`.  This matters because
`user_service.py` branches on the dicts themselves (`if not user_data:`,
`if otp_sent:`, `if is_valid:`) while `whatsapp_service.py` reads the
`"exists"` / `"success"` keys.
-/

/-- `get_user_by_phone` result: `exists` plus profile fields (absent keys are
`none`). -/
structure LookupResp where
  user_exists : Bool
  user_id : Option String := none
  first_name : Option String := none
  last_name : Option String := none
deriving Repr, DecidableEq

/-- Both the found and the not-found dicts are non-empty, hence truthy. -/
def LookupResp.truthy (_ : LookupResp) : Bool := true

/-- `send_otp` result: a dict with a `success` flag. -/
structure OtpSendResp where
  success : Bool
deriving Repr, DecidableEq

/-- Both the success and the failure dicts are non-empty, hence truthy. -/
def OtpSendResp.truthy (_ : OtpSendResp) : Bool := true

/-- `verify_otp` result: `success` flag, `user_id` on success, `message` on
failure. -/
structure ApiVerifyResp where
  success : Bool
  user_id : Option String := none
  message : Option String := none
deriving Repr, DecidableEq

/-- Both the success and the failure dicts are non-empty, hence truthy. -/
def ApiVerifyResp.truthy (_ : ApiVerifyResp) : Bool := true

/-- User-facing strings returned by `UserService`, as tags carrying their
dynamic parts. -/
inductive UserMsg where
  | alreadyAuthenticated
  | registerFirst
  | verificationCodeSent (phone : String)
  | failedToSendCode
  | noVerificationInProgress
  | codeExpired
  | verificationSuccessful (firstName : Option String)
  | invalidCode
deriving Repr, DecidableEq

/-- Observable outcome of `UserService.start_authentication`. -/
structure StartAuthOutcome where
  ok : Bool
  message : UserMsg
  store : SessionStore
  otpSendCalled : Bool
deriving Repr, DecidableEq

/-- `UserService.start_authentication`: the user lookup and the OTP send are
oracles.  Note that both `if not user_data:` and `if otp_sent:` test dict
truthiness, not the `exists` / `success` flags. -/
def startAuthentication (now : ℚ) (st : SessionStore) (phone : String)
    (userData : LookupResp) (otpResp : OtpSendResp) : StartAuthOutcome :=
  let r := getOrCreateSession now st phone
  let s := r.1
  let st1 := r.2
  if s.is_authenticated then ⟨true, .alreadyAuthenticated, st1, false⟩
  else if !userData.truthy then ⟨false, .registerFirst, st1, false⟩
  else if otpResp.truthy then
    ⟨true, .verificationCodeSent phone,
      updateSession now st1
        { s with current_state := .waitingForOtp, otp_sent_at := some now,
                 first_name := userData.first_name,
                 last_name := userData.last_name },
      true⟩
  else ⟨false, .failedToSendCode, st1, true⟩

/-- Observable outcome of `UserService.verify_otp`. -/
structure VerifyOtpOutcome where
  ok : Bool
  message : UserMsg
  store : SessionStore
  verifyCalled : Bool
deriving Repr, DecidableEq

/-- `UserService.verify_otp`: state gate, OTP-age gate, then the upstream
verification.  `if is_valid:` tests the truthiness of the response dict. -/
def verifyOtp (now : ℚ) (st : SessionStore) (phone otp : String)
    (resp : ApiVerifyResp) : VerifyOtpOutcome :=
  let r := getOrCreateSession now st phone
  let s := r.1
  let st1 := r.2
  if s.current_state ≠ .waitingForOtp then
    ⟨false, .noVerificationInProgress, st1, false⟩
  else
    let otpExpired :=
      match s.otp_sent_at with
      | some t0 => decide (otpTimeout < now - t0)
      | none => false
    if otpExpired then
      ⟨false, .codeExpired,
        updateSession now st1 { s with current_state := .initial }, false⟩
    else if resp.truthy then
      ⟨true, .verificationSuccessful s.first_name,
        updateSession now st1
          { s with is_authenticated := true, current_state := .authenticated },
        true⟩
    else ⟨false, .invalidCode, st1, true⟩

/-! ## WhatsApp conversation handlers (whatsapp_service.py)

`WhatsAppService` keeps its own per-sender session objects and reads/writes
the attributes `state` (a string: `"init"`, `"awaiting_phone"`,
`"awaiting_otp"`, `"authenticated"`), `phone_number` and
`bitsacco_user_id`; the embedding mirrors those attributes.  Outbound
`_send_message` calls become `WMsg` tags carrying the interpolated values.
-/

/-- The session object as `whatsapp_service.py` uses it. -/
structure WSession where
  user_id : String
  state : String
  created_at : ℚ
  last_activity : ℚ
  phone_number : Option String := none
  bitsacco_user_id : Option String := none
deriving Repr, DecidableEq

/-- Outbound WhatsApp messages, as tags carrying their dynamic parts. -/
inductive WMsg where
  | invalidPhoneFormat
  | noAccountFound (phone : String)
  | otpSentTo (phone : String)
  | otpSendFailed
  | invalidOtpFormat
  | authSuccess
  | invalidOtp
  | minAmountError
  | maxAmountError
  | savingsInitiated (amount : ℚ) (phone : Option String) (txid : Option String)
  | savingsFailed (message : Option String)
  | invalidAmountError
deriving Repr, DecidableEq

/-- `WhatsAppService._is_valid_phone_number`: a leading `+` followed by 10 to
15 digits.  (Python `"".isdigit()` is `False` while `List.all` on `[]` is
`true`; the length lower bound of 10 makes the two agree on every input.) -/
def isValidPhoneNumber (phone : String) : Bool :=
  strStartsWith phone "+" &&
    (let digits := strDrop phone 1
     digits.toList.all Char.isDigit &&
       decide (10 ≤ digits.length) && decide (digits.length ≤ 15))

/-- Result of `WhatsAppService._handle_phone_input`. -/
structure PhoneInputResult where
  session : WSession
  sent : List WMsg
  otpSendCalled : Bool
deriving Repr, DecidableEq

/-- `WhatsAppService._handle_phone_input`: normalize, validate, look the user
up (`user_data.get("exists", True)` — the client always sets the key), and
send the OTP on a found user; only a successful send moves the session to
`awaiting_otp`. -/
def handlePhoneInput (s : WSession) (phone : String) (userData : LookupResp)
    (otpResp : OtpSendResp) : PhoneInputResult :=
  let np := normalizePhoneNumber phone
  if !isValidPhoneNumber np then ⟨s, [.invalidPhoneFormat], false⟩
  else if !userData.user_exists then ⟨s, [.noAccountFound np], false⟩
  else if otpResp.success then
    ⟨{ s with state := "awaiting_otp", phone_number := some np },
      [.otpSentTo np], true⟩
  else ⟨s, [.otpSendFailed], true⟩

/-- Result of `WhatsAppService._handle_otp_input`. -/
structure OtpInputResult where
  session : WSession
  sent : List WMsg
  verifyCalled : Bool
deriving Repr, DecidableEq

/-- `WhatsAppService._handle_otp_input`: require 6 digits, verify upstream,
and on `success` mark the session authenticated with the returned user id;
otherwise reply `invalid OTP` and leave the session untouched. -/
def handleOtpInput (s : WSession) (otp : String) (resp : ApiVerifyResp) :
    OtpInputResult :=
  let otpDigits := digitsOnly otp
  if otpDigits.length ≠ 6 then ⟨s, [.invalidOtpFormat], false⟩
  else if resp.success then
    ⟨{ s with state := "authenticated", bitsacco_user_id := resp.user_id },
      [.authSuccess], true⟩
  else ⟨s, [.invalidOtp], true⟩

/-! ### Amount parsing for `save <amount>` -/

/-- Python `str.lower()` for ASCII input. -/
def lowerAscii (s : String) : String :=
  String.mk (s.toList.map Char.toLower)

/-- Python `str.replace(pat, "")` on a non-empty pattern, with explicit fuel
(one unit per consumed character) so the recursion is structural: remove
every non-overlapping, leftmost occurrence of `pat`. -/
def removeAllAux (pat : List Char) : ℕ → List Char → List Char
  | 0, l => l
  | _ + 1, [] => []
  | fuel + 1, c :: rest =>
      if pat.isPrefixOf (c :: rest) ∧ pat ≠ [] then
        removeAllAux pat fuel (rest.drop (pat.length - 1))
      else
        c :: removeAllAux pat fuel rest

/-- Python `str.replace(pat, "")` for a non-empty `pat`. -/
def removeAll (pat l : List Char) : List Char :=
  removeAllAux pat l.length l

/-- Python `str.strip()` for ASCII whitespace. -/
def stripEnds (s : String) : String :=
  String.mk
    (((s.toList.dropWhile Char.isWhitespace).reverse.dropWhile
        Char.isWhitespace).reverse)

/-- `"".join(filter(lambda x: x.isdigit() or x == ".", s))`. -/
def amountChars (s : String) : String :=
  String.mk (s.toList.filter (fun c => c.isDigit || c == '.'))

/-- Split a character list at every `'.'`. -/
def splitOnDot : List Char → List (List Char)
  | [] => [[]]
  | c :: rest =>
      let r := splitOnDot rest
      if c = '.' then [] :: r
      else
        match r with
        | [] => [[c]]
        | h :: t => (c :: h) :: t

/-- Numeric value of a list of decimal digit characters. -/
def digitsVal (l : List Char) : ℕ :=
  l.foldl (fun acc c => 10 * acc + (c.toNat - 48)) 0

/-- Python `float(s)` restricted to strings of digits and dots (the only
shape `_handle_save_command` can produce): `ValueError` on an empty string,
a bare dot or more than one dot; otherwise the decimal value. -/
def pyFloatOfAmount (s : String) : Option ℚ :=
  match splitOnDot s.toList with
  | [a] => if a = [] then none else some (digitsVal a)
  | [a, b] =>
      if a = [] ∧ b = [] then none
      else some ((digitsVal a : ℚ) + (digitsVal b : ℚ) / 10 ^ b.length)
  | _ => none

/-- `initiate_bitcoin_savings` result: `success`, `transaction_id` on
success, `message` on failure. -/
structure SaveApiResp where
  success : Bool
  transaction_id : Option String := none
  message : Option String := none
deriving Repr, DecidableEq

/-- Result of `WhatsAppService._handle_save_command`. -/
structure SaveCmdResult where
  session : WSession
  sent : List WMsg
  savingsApiCalled : Bool
deriving Repr, DecidableEq

/-- The amount-extraction pipeline of `_handle_save_command`:
`content.lower().replace("save", "").strip()`, then
`float("".join(filter(lambda x: x.isdigit() or x == ".", amount_str)))`;
`none` is the `ValueError` path. -/
def saveAmountOf (content : String) : Option ℚ :=
  let amountStr :=
    stripEnds (String.mk (removeAll "save".toList (lowerAscii content).toList))
  pyFloatOfAmount (amountChars amountStr)

/-- `WhatsAppService._handle_save_command`: extract the amount from the text,
reject below 100 or above 50000 before any API call, then initiate the
savings and confirm with the returned transaction id (or report the
failure message). The session object is never written. -/
def handleSaveCommand (s : WSession) (content : String) (resp : SaveApiResp) :
    SaveCmdResult :=
  match saveAmountOf content with
  | none => ⟨s, [.invalidAmountError], false⟩
  | some amount =>
      if amount < 100 then ⟨s, [.minAmountError], false⟩
      else if amount > 50000 then ⟨s, [.maxAmountError], false⟩
      else if resp.success then
        ⟨s, [.savingsInitiated amount s.phone_number resp.transaction_id], true⟩
      else ⟨s, [.savingsFailed resp.message], true⟩

end Bitsacco

namespace Bitsacco

/-- C9: each of the four input formats `0712345678`, `254712345678`,
`+254712345678`, `712345678` normalizes to `+254712345678`, and the three
normalization implementations in the codebase (whatsapp service, user
service, security service) agree on these inputs. -/
theorem c9_phone_normalization_agreement :
    (normalizePhoneNumber "0712345678" = "+254712345678" ∧
     normalizePhoneNumber "254712345678" = "+254712345678" ∧
     normalizePhoneNumber "+254712345678" = "+254712345678" ∧
     normalizePhoneNumber "712345678" = "+254712345678") ∧
    (cleanPhoneNumber "0712345678" = "+254712345678" ∧
     cleanPhoneNumber "254712345678" = "+254712345678" ∧
     cleanPhoneNumber "+254712345678" = "+254712345678" ∧
     cleanPhoneNumber "712345678" = "+254712345678") ∧
    (sanitizePhoneNumber "0712345678" = some "+254712345678" ∧
     sanitizePhoneNumber "254712345678" = some "+254712345678" ∧
     sanitizePhoneNumber "+254712345678" = some "+254712345678" ∧
     sanitizePhoneNumber "712345678" = some "+254712345678") := by
  decide

/-! ### Rate limiter lemmas -/

theorem rateRun_nil (m : ℕ) (w : ℚ) (store : List ℚ) :
    rateRun m w store [] = [] := rfl

theorem rateRun_cons (m : ℕ) (w : ℚ) (store : List ℚ) (t : ℚ) (ts : List ℚ) :
    rateRun m w store (t :: ts) =
      (t, (rateStep m w store t).1) :: rateRun m w (rateStep m w store t).2 ts := rfl

theorem rateStep_denied (m : ℕ) (w now : ℚ) (store : List ℚ)
    (h : m ≤ (store.filter (fun x => decide (now - w < x))).length) :
    rateStep m w store now = (false, store.filter (fun x => decide (now - w < x))) := by
  simp [rateStep, h]

theorem rateStep_allowed (m : ℕ) (w now : ℚ) (store : List ℚ)
    (h : (store.filter (fun x => decide (now - w < x))).length < m) :
    rateStep m w store now =
      (true, store.filter (fun x => decide (now - w < x)) ++ [now]) := by
  simp [rateStep, Nat.not_le.mpr h]

/-- Pruning at a call time `t ≤ a + w` removes no timestamp above `a`. -/
theorem filter_pruned_eq (l : List ℚ) (a w t : ℚ) (h : t ≤ a + w) :
    (l.filter (fun x => decide (t - w < x))).filter (fun x => decide (a < x)) =
      l.filter (fun x => decide (a < x)) := by
  rw [List.filter_filter]
  apply List.filter_congr
  intro x _
  by_cases hx : a < x
  · have h1 : t - w < x := by linarith
    simp [hx, h1]
  · simp [hx]

/-- No call outside the window `(a, a + w]` is counted, whatever the store. -/
theorem allowedInWindow_zero (m : ℕ) (w a : ℚ) (times : List ℚ) :
    ∀ store : List ℚ, (∀ x ∈ times, ¬ (a < x ∧ x ≤ a + w)) →
      allowedInWindow a w (rateRun m w store times) = 0 := by
  induction times with
  | nil => intro store _; rfl
  | cons t rest ih =>
      intro store h
      rw [rateRun_cons]
      show (if _ ∧ a < t ∧ t ≤ a + w then 1 else 0) + _ = 0
      rw [if_neg fun hc => h t (List.mem_cons_self t rest) ⟨hc.2.1, hc.2.2⟩,
        ih _ fun x hx => h x (List.mem_cons_of_mem _ hx)]

/-- Sliding-window invariant: starting from a store whose above-`a` entries
number at most `m` and precede all call times, the allowed calls inside
`(a, a + w]` plus those entries never exceed `m`. -/
theorem rateRun_window_aux (m : ℕ) (w a : ℚ) (times : List ℚ) :
    ∀ store : List ℚ,
      List.Pairwise (· ≤ ·) times →
      (∀ s ∈ store, ∀ t ∈ times, s ≤ t) →
      (store.filter (fun x => decide (a < x))).length ≤ m →
      allowedInWindow a w (rateRun m w store times) +
        (store.filter (fun x => decide (a < x))).length ≤ m := by
  induction times with
  | nil =>
      intro store _ _ h
      simpa [rateRun, allowedInWindow] using h
  | cons t rest ih =>
      intro store hpw hmono hlen
      rw [List.pairwise_cons] at hpw
      obtain ⟨hhead, hpw2⟩ := hpw
      by_cases hta : t ≤ a + w
      · -- the call time is at or before the right end of the window
        have hfeq := filter_pruned_eq store a w t hta
        by_cases hall : m ≤ (store.filter (fun x => decide (t - w < x))).length
        · -- denied: store becomes the pruned list, nothing recorded
          rw [rateRun_cons, rateStep_denied m w t store hall]
          have hmono2 : ∀ s ∈ store.filter (fun x => decide (t - w < x)),
              ∀ x ∈ rest, s ≤ x := fun s hs x hx =>
            hmono s (List.mem_of_mem_filter hs) x (List.mem_cons_of_mem _ hx)
          have hrec := ih (store.filter (fun x => decide (t - w < x))) hpw2 hmono2
            (by rw [hfeq]; exact hlen)
          rw [hfeq] at hrec
          simpa [allowedInWindow] using hrec
        · -- allowed: `t` is appended to the pruned list
          push_neg at hall
          rw [rateRun_cons, rateStep_allowed m w t store hall]
          have hmono2 : ∀ s ∈ store.filter (fun x => decide (t - w < x)) ++ [t],
              ∀ x ∈ rest, s ≤ x := by
            intro s hs x hx
            rcases List.mem_append.mp hs with hs1 | hs1
            · exact hmono s (List.mem_of_mem_filter hs1) x (List.mem_cons_of_mem _ hx)
            · rw [List.mem_singleton.mp hs1]; exact hhead x hx
          by_cases hat : a < t
          · have hflen :
                (((store.filter (fun x => decide (t - w < x))) ++ [t]).filter
                  (fun x => decide (a < x))).length =
                  (store.filter (fun x => decide (a < x))).length + 1 := by
              rw [List.filter_append, List.length_append, hfeq]
              simp [hat]
            have hlt : (store.filter (fun x => decide (a < x))).length + 1 ≤ m := by
              have h2 : ((store.filter (fun x => decide (t - w < x))).filter
                  (fun x => decide (a < x))).length ≤
                    (store.filter (fun x => decide (t - w < x))).length :=
                List.length_filter_le _ _
              rw [hfeq] at h2
              omega
            have hrec := ih _ hpw2 hmono2 (by rw [hflen]; exact hlt)
            rw [hflen] at hrec
            simp [allowedInWindow, hat, hta]
            omega
          · have hflen :
                (((store.filter (fun x => decide (t - w < x))) ++ [t]).filter
                  (fun x => decide (a < x))).length =
                  (store.filter (fun x => decide (a < x))).length := by
              rw [List.filter_append, List.length_append, hfeq]
              simp [hat]
            have hrec := ih _ hpw2 hmono2 (by rw [hflen]; exact hlen)
            rw [hflen] at hrec
            simp [allowedInWindow, hat]
            omega
      · -- the call time is beyond the window: nothing in it counts any more
        have hrest : ∀ x ∈ rest, ¬ (a < x ∧ x ≤ a + w) := by
          intro x hx hc
          exact hta (le_trans (hhead x hx) hc.2)
        rw [rateRun_cons]
        have hz := allowedInWindow_zero m w a rest (rateStep m w store t).2 hrest
        have hhd : (if (rateStep m w store t).1 ∧ a < t ∧ t ≤ a + w then 1 else 0) = 0 :=
          if_neg fun hc => hta hc.2.2
        simp only [allowedInWindow, hhd, hz]
        omega

/-- C5: a rate-limit check for a configured policy prunes timestamps older
than the window and then allows (recording `now`) exactly when the remaining
count is below `maxRequests`, denying without recording otherwise; starting
from an empty window, at most `maxRequests` calls are allowed inside any
rolling window `(a, a + w]`; and the first call for a never-seen identifier
is always allowed. -/
theorem c5_rate_limit_contract :
    (∀ (store : RateStore) (rt idf : String) (now : ℚ) (cfg : RatePolicy),
        rateLimits rt = some cfg →
        ((storeGet store (rt ++ ":" ++ idf)).filter
            (fun x => decide (now - cfg.window < x))).length < cfg.requests →
        checkRateLimit store rt idf now =
          (true, storeSet store (rt ++ ":" ++ idf)
            ((storeGet store (rt ++ ":" ++ idf)).filter
              (fun x => decide (now - cfg.window < x)) ++ [now]))) ∧
    (∀ (store : RateStore) (rt idf : String) (now : ℚ) (cfg : RatePolicy),
        rateLimits rt = some cfg →
        cfg.requests ≤ ((storeGet store (rt ++ ":" ++ idf)).filter
            (fun x => decide (now - cfg.window < x))).length →
        checkRateLimit store rt idf now =
          (false, storeSet store (rt ++ ":" ++ idf)
            ((storeGet store (rt ++ ":" ++ idf)).filter
              (fun x => decide (now - cfg.window < x))))) ∧
    (∀ (m : ℕ) (w a : ℚ) (times : List ℚ),
        List.Pairwise (· ≤ ·) times →
        allowedInWindow a w (rateRun m w [] times) ≤ m) ∧
    (∀ (m : ℕ) (w now : ℚ), 0 < m → rateStep m w [] now = (true, [now])) := by
  refine ⟨?_, ?_, ?_, ?_⟩
  · intro store rt idf now cfg hcfg hlt
    simp only [checkRateLimit, hcfg, rateStep_allowed _ _ _ _ hlt]
  · intro store rt idf now cfg hcfg hge
    simp only [checkRateLimit, hcfg, rateStep_denied _ _ _ _ hge]
  · intro m w a times hpw
    have h := rateRun_window_aux m w a times [] hpw (by simp) (by simp)
    simpa using h
  · intro m w now hm
    simp [rateStep, Nat.not_le.mpr hm]

/-- Witness for C5 at concrete inputs: an `authentication` check on a fresh
store is allowed and records the call time; three chronological calls under a
policy of 3 stay within the window bound; and a first-ever call passes. -/
theorem c5_rate_limit_contract_witness :
    checkRateLimit [] "authentication" "u1" 7 =
      (true, [("authentication:u1", [(7 : ℚ)])]) ∧
    allowedInWindow 0 600 (rateRun 3 600 [] [1, 2, 3, 4]) ≤ 3 ∧
    rateStep 5 300 [] 1 = (true, [(1 : ℚ)]) := by
  refine ⟨?_, ?_, ?_⟩
  · have h := c5_rate_limit_contract.1 [] "authentication" "u1" 7 ⟨5, 300⟩
      (by decide) (by decide)
    simpa [storeGet, storeSet] using h
  · exact c5_rate_limit_contract.2.2.1 3 600 0 [1, 2, 3, 4] (by norm_num)
  · exact c5_rate_limit_contract.2.2.2 5 300 1 (by norm_num)

/-- C10: any request type outside the three configured policy keys passes the
rate-limit check unconditionally with the store untouched; in particular the
names `otpRequest` and `generalApi` are not configured, while exactly
`authentication`, `api_calls` and `otp_requests` are. -/
theorem c10_unconfigured_request_types :
    (∀ (store : RateStore) (rt idf : String) (now : ℚ),
        rateLimits rt = none →
        checkRateLimit store rt idf now = (true, store)) ∧
    rateLimits "otpRequest" = none ∧
    rateLimits "generalApi" = none ∧
    (∀ rt : String, (rateLimits rt).isSome ↔
        rt = "authentication" ∨ rt = "api_calls" ∨ rt = "otp_requests") := by
  refine ⟨?_, by decide, by decide, ?_⟩
  · intro store rt idf now h
    simp [checkRateLimit, h]
  · intro rt
    unfold rateLimits
    split_ifs with h1 h2 h3 <;> simp_all

/-- Witness for C10: the spec-named policy `generalApi` is not limited. -/
theorem c10_unconfigured_request_types_witness :
    checkRateLimit [("api_calls:u", [(1 : ℚ)])] "generalApi" "u" 2 =
      (true, [("api_calls:u", [(1 : ℚ)])]) :=
  c10_unconfigured_request_types.1 [("api_calls:u", [(1 : ℚ)])] "generalApi" "u" 2
    (by decide)

/-- C6: with the client's `max_retries = 3`, a response sequence of exactly
two 500s followed by a 200 returns the 200 payload on the third attempt
(two retries) after sleeping `baseDelay * 2 ^ 0` and `baseDelay * 2 ^ 1`; a
404 returns the typed not-found result (`None`) on the first attempt with no
retries and no sleeps; 401 and 403 raise the terminal authentication error
on the first attempt with no retries and no sleeps. -/
theorem c6_retry_and_classification :
    (∀ (d : ℚ) (p e : String),
        makeRequest (fun i => if i < 2 then .status 500 e else .status 200 p) 3 d =
          ⟨Except.ok (some p), 3, [d * 2 ^ 0, d * 2 ^ 1]⟩) ∧
    (∀ (d : ℚ) (e : String),
        makeRequest (fun _ => .status 404 e) 3 d = ⟨Except.ok none, 1, []⟩) ∧
    (∀ (d : ℚ) (e : String),
        makeRequest (fun _ => .status 401 e) 3 d =
          ⟨Except.error .authFailed, 1, []⟩) ∧
    (∀ (d : ℚ) (e : String),
        makeRequest (fun _ => .status 403 e) 3 d =
          ⟨Except.error .authFailed, 1, []⟩) := by
  refine ⟨fun d p e => ?_, fun d e => ?_, fun d e => ?_, fun d e => ?_⟩ <;> rfl

/-! ### Session-store lemmas -/

theorem sessionsGet_set_self (st : SessionStore) (k : String) (s : UserSession) :
    sessionsGet (sessionsSet st k s) k = some s := by
  simp [sessionsGet, sessionsSet, List.lookup]

/-- A stored, unexpired session is returned as-is with the store untouched. -/
theorem getOrCreate_live (now : ℚ) (st : SessionStore) (phone : String)
    (s : UserSession) (hget : sessionsGet st (cleanPhoneNumber phone) = some s)
    (hexp : isSessionExpired now s = false) :
    getOrCreateSession now st phone = (s, st) := by
  simp [getOrCreateSession, hget, hexp]

/-- `verify_otp` on a live `WAITING_FOR_OTP` session with an unexpired OTP
reduces to the truthiness test on the upstream response. -/
theorem verifyOtp_fresh (now : ℚ) (st : SessionStore) (phone otp : String)
    (resp : ApiVerifyResp) (s : UserSession)
    (hget : sessionsGet st (cleanPhoneNumber phone) = some s)
    (hexp : isSessionExpired now s = false)
    (hstate : s.current_state = .waitingForOtp)
    (hotp : ∀ t0, s.otp_sent_at = some t0 → now - t0 ≤ otpTimeout) :
    verifyOtp now st phone otp resp =
      ⟨true, .verificationSuccessful s.first_name,
        updateSession now st
          { s with is_authenticated := true, current_state := .authenticated },
        true⟩ := by
  rw [verifyOtp, getOrCreate_live now st phone s hget hexp]
  have hne : ¬ s.current_state ≠ UserState.waitingForOtp := by simp [hstate]
  rcases hs : s.otp_sent_at with _ | t0
  · simp [hs, hne, ApiVerifyResp.truthy]
  · have hle : ¬ (otpTimeout < now - t0) := not_lt.mpr (hotp t0 hs)
    simp [hs, hne, hle, ApiVerifyResp.truthy]

/-- `start_authentication` on a live, unauthenticated session always reaches
the code-sent branch: both the lookup and the send-OTP response dicts are
truthy whatever their flags say. -/
theorem startAuth_eval (now : ℚ) (st : SessionStore) (phone : String)
    (userData : LookupResp) (otpResp : OtpSendResp) (s : UserSession)
    (hget : sessionsGet st (cleanPhoneNumber phone) = some s)
    (hexp : isSessionExpired now s = false)
    (hauth : s.is_authenticated = false) :
    startAuthentication now st phone userData otpResp =
      ⟨true, .verificationCodeSent phone,
        updateSession now st
          { s with current_state := .waitingForOtp, otp_sent_at := some now,
                   first_name := userData.first_name,
                   last_name := userData.last_name },
        true⟩ := by
  rw [startAuthentication, getOrCreate_live now st phone s hget hexp]
  simp [hauth, LookupResp.truthy, OtpSendResp.truthy]

/-- C1: behavior on a failed upstream verification (`success = false`) for a
session awaiting its OTP with the code still fresh.  The WhatsApp handler
(`_handle_otp_input`) behaves as the spec says: the session object is
returned unchanged (still `awaiting_otp`, not authenticated) and the
invalid-OTP retry message is sent.  `UserService.verify_otp`, however, tests
`if is_valid:` on the response dict, which is truthy even when its success
flag is false, so at the same inputs it marks the session `AUTHENTICATED`
and returns the verification-successful message — the invalid-code branch of
the source is unreachable. -/
theorem c1_failed_verification_handling :
    (handleOtpInput ⟨"chat1", "awaiting_otp", 0, 0, some "+254712345678", none⟩
        "123456" { success := false, message := some "Invalid OTP" } =
      ⟨⟨"chat1", "awaiting_otp", 0, 0, some "+254712345678", none⟩,
        [.invalidOtp], true⟩) ∧
    (verifyOtp 10
        [("+254712345678",
          { user_id := "+254712345678", current_state := .waitingForOtp,
            created_at := 0, last_activity := 0,
            phone_number := some "+254712345678", otp_sent_at := some 0 })]
        "+254712345678" "123456"
        { success := false, message := some "Invalid OTP" } =
      ⟨true, .verificationSuccessful none,
        [("+254712345678",
          { user_id := "+254712345678", current_state := .authenticated,
            created_at := 0, last_activity := 10,
            phone_number := some "+254712345678", is_authenticated := true,
            otp_sent_at := some 0 })],
        true⟩) := by
  refine ⟨rfl, ?_⟩
  rw [verifyOtp_fresh 10
    [("+254712345678",
      { user_id := "+254712345678", current_state := .waitingForOtp,
        created_at := 0, last_activity := 0,
        phone_number := some "+254712345678", otp_sent_at := some 0 })]
    "+254712345678" "123456"
    { success := false, message := some "Invalid OTP" }
    { user_id := "+254712345678", current_state := .waitingForOtp,
      created_at := 0, last_activity := 0,
      phone_number := some "+254712345678", otp_sent_at := some 0 }
    rfl (by norm_num [isSessionExpired, sessionTimeout]) rfl
    (by intro t0 ht0; injection ht0 with h; rw [← h]; norm_num [otpTimeout])]
  rfl

/-- C2 counterexample: a session authenticated through
`UserService.verify_otp` (here even with the upstream reporting success and
returning a user id) ends in state `AUTHENTICATED` with
`bitsacco_user_id = None`, because `verify_otp` never assigns the account
identifier.  This falsifies `state == Authenticated ⇔ accountId != null`. -/
theorem c2_authenticated_with_null_account_id :
    (sessionsGet
        (verifyOtp 20
          [("+254700000001",
            { user_id := "+254700000001", current_state := .waitingForOtp,
              created_at := 0, last_activity := 5,
              phone_number := some "+254700000001",
              otp_sent_at := some 10 })]
          "+254700000001" "654321"
          { success := true, user_id := some "B42" }).store
        "+254700000001").map (fun s => (s.current_state, s.bitsacco_user_id)) =
      some (.authenticated, none) := by
  rw [verifyOtp_fresh 20
    [("+254700000001",
      { user_id := "+254700000001", current_state := .waitingForOtp,
        created_at := 0, last_activity := 5,
        phone_number := some "+254700000001", otp_sent_at := some 10 })]
    "+254700000001" "654321"
    { success := true, user_id := some "B42" }
    { user_id := "+254700000001", current_state := .waitingForOtp,
      created_at := 0, last_activity := 5,
      phone_number := some "+254700000001", otp_sent_at := some 10 }
    rfl (by norm_num [isSessionExpired, sessionTimeout]) rfl
    (by intro t0 ht0; injection ht0 with h; rw [← h]; norm_num [otpTimeout])]
  rfl

/-- C2 amended: `UserService.verify_otp` marks a live awaiting-OTP session
authenticated (state `AUTHENTICATED`, `is_authenticated` set) while leaving
`bitsacco_user_id` exactly as it was — it never assigns the account
identifier, so `Authenticated` does not imply a non-null account id.  Only
`WhatsAppService._handle_otp_input` assigns it when marking a session
authenticated, and there it equals the verification result's `user_id`,
which may itself be null. -/
theorem c2_amended_account_id_assignment :
    (∀ (now : ℚ) (st : SessionStore) (phone otp : String)
        (resp : ApiVerifyResp) (s : UserSession),
        sessionsGet st (cleanPhoneNumber phone) = some s →
        isSessionExpired now s = false →
        s.current_state = .waitingForOtp →
        (∀ t0, s.otp_sent_at = some t0 → now - t0 ≤ otpTimeout) →
        s.phone_number = some (cleanPhoneNumber phone) →
        sessionsGet (verifyOtp now st phone otp resp).store
            (cleanPhoneNumber phone) =
          some { s with is_authenticated := true,
                        current_state := .authenticated,
                        last_activity := now }) ∧
    (∀ (s : WSession) (otp : String) (resp : ApiVerifyResp),
        (digitsOnly otp).length = 6 → resp.success = true →
        (handleOtpInput s otp resp).session.state = "authenticated" ∧
        (handleOtpInput s otp resp).session.bitsacco_user_id = resp.user_id) := by
  constructor
  · intro now st phone otp resp s hget hexp hstate hotp hphone
    rw [verifyOtp_fresh now st phone otp resp s hget hexp hstate hotp]
    simp [updateSession, hphone, sessionsGet_set_self]
  · intro s otp resp hlen hsucc
    simp [handleOtpInput, hlen, hsucc]

/-- Witness for the amended C2 at concrete inputs. -/
theorem c2_amended_account_id_assignment_witness :
    sessionsGet
        (verifyOtp 30
          [("+254700000002",
            { user_id := "+254700000002", current_state := .waitingForOtp,
              created_at := 0, last_activity := 5,
              phone_number := some "+254700000002",
              otp_sent_at := some 20 })]
          "+254700000002" "111222"
          { success := true, user_id := some "B7" }).store
        "+254700000002" =
      some { user_id := "+254700000002", current_state := .authenticated,
             created_at := 0, last_activity := 30,
             phone_number := some "+254700000002",
             is_authenticated := true, otp_sent_at := some 20 } ∧
    (handleOtpInput ⟨"chat2", "awaiting_otp", 0, 0, some "+254700000002", none⟩
        "111222" { success := true, user_id := some "B7" }).session.state =
      "authenticated" ∧
    (handleOtpInput ⟨"chat2", "awaiting_otp", 0, 0, some "+254700000002", none⟩
        "111222"
        { success := true, user_id := some "B7" }).session.bitsacco_user_id =
      some "B7" := by
  refine ⟨?_, ?_, ?_⟩
  · have h := c2_amended_account_id_assignment.1 30
      [("+254700000002",
        { user_id := "+254700000002", current_state := .waitingForOtp,
          created_at := 0, last_activity := 5,
          phone_number := some "+254700000002", otp_sent_at := some 20 })]
      "+254700000002" "111222" { success := true, user_id := some "B7" }
      { user_id := "+254700000002", current_state := .waitingForOtp,
        created_at := 0, last_activity := 5,
        phone_number := some "+254700000002", otp_sent_at := some 20 }
      rfl (by norm_num [isSessionExpired, sessionTimeout]) rfl
      (by intro t0 ht0; injection ht0 with h0; rw [← h0]; norm_num [otpTimeout])
      rfl
    exact h
  · exact (c2_amended_account_id_assignment.2
      ⟨"chat2", "awaiting_otp", 0, 0, some "+254700000002", none⟩ "111222"
      { success := true, user_id := some "B7" } (by decide) rfl).1
  · exact (c2_amended_account_id_assignment.2
      ⟨"chat2", "awaiting_otp", 0, 0, some "+254700000002", none⟩ "111222"
      { success := true, user_id := some "B7" } (by decide) rfl).2

/-- C3: behavior on a phone number submitted in state awaiting-phone.  The
WhatsApp handler (`_handle_phone_input`) behaves as the spec says: an
unknown user leaves the session in `awaiting_phone` with the register-first
message and no OTP send, while a found user with a successful send moves it
to `awaiting_otp` with the OTP-sent confirmation.
`UserService.start_authentication`, however, tests `if not user_data:` and
`if otp_sent:` on response dicts, which are truthy even for the not-found
and send-failure responses, so for an unknown user it still reports the
verification code sent, attempts the OTP send, and moves the session to
`WAITING_FOR_OTP` — its register-first branch is unreachable. -/
theorem c3_phone_lookup_handling :
    (handlePhoneInput ⟨"chat3", "awaiting_phone", 0, 0, none, none⟩
        "0712345678" { user_exists := false } ⟨true⟩ =
      ⟨⟨"chat3", "awaiting_phone", 0, 0, none, none⟩,
        [.noAccountFound "+254712345678"], false⟩) ∧
    (handlePhoneInput ⟨"chat3", "awaiting_phone", 0, 0, none, none⟩
        "0712345678" { user_exists := true, user_id := some "B1" } ⟨true⟩ =
      ⟨⟨"chat3", "awaiting_otp", 0, 0, some "+254712345678", none⟩,
        [.otpSentTo "+254712345678"], true⟩) ∧
    (startAuthentication 5
        [("+254712345678",
          { user_id := "+254712345678", current_state := .awaitingPhone,
            created_at := 0, last_activity := 0,
            phone_number := some "+254712345678" })]
        "+254712345678" { user_exists := false } ⟨false⟩ =
      ⟨true, .verificationCodeSent "+254712345678",
        [("+254712345678",
          { user_id := "+254712345678", current_state := .waitingForOtp,
            created_at := 0, last_activity := 5,
            phone_number := some "+254712345678", otp_sent_at := some 5 })],
        true⟩) := by
  refine ⟨rfl, rfl, ?_⟩
  rw [startAuth_eval 5
    [("+254712345678",
      { user_id := "+254712345678", current_state := .awaitingPhone,
        created_at := 0, last_activity := 0,
        phone_number := some "+254712345678" })]
    "+254712345678" { user_exists := false } ⟨false⟩
    { user_id := "+254712345678", current_state := .awaitingPhone,
      created_at := 0, last_activity := 0,
      phone_number := some "+254712345678" }
    rfl (by norm_num [isSessionExpired, sessionTimeout]) rfl]
  rfl

/-- C4: a live `WAITING_FOR_OTP` session whose `otp_sent_at` is more than
`otp_timeout` (5 minutes) old transitions to `INITIAL` with the code-expired
message on the next verification attempt, whatever the upstream verification
would answer, and no upstream verification call is made. -/
theorem c4_expired_otp_resets_to_initial :
    ∀ (now t0 : ℚ) (st : SessionStore) (phone otp : String)
      (resp : ApiVerifyResp) (s : UserSession),
      sessionsGet st (cleanPhoneNumber phone) = some s →
      isSessionExpired now s = false →
      s.current_state = .waitingForOtp →
      s.otp_sent_at = some t0 →
      otpTimeout < now - t0 →
      s.phone_number = some (cleanPhoneNumber phone) →
      verifyOtp now st phone otp resp =
        ⟨false, .codeExpired,
          sessionsSet st (cleanPhoneNumber phone)
            { s with current_state := .initial, last_activity := now },
          false⟩ := by
  intro now t0 st phone otp resp s hget hexp hstate hotp hlt hphone
  rw [verifyOtp, getOrCreate_live now st phone s hget hexp]
  have hne : ¬ s.current_state ≠ UserState.waitingForOtp := by simp [hstate]
  simp [hotp, hne, hlt, updateSession, hphone]

/-- Witness for C4: even an upstream success response cannot authenticate a
stale code; the session is reset to `INITIAL` without a verification call. -/
theorem c4_expired_otp_resets_to_initial_witness :
    verifyOtp 400
      [("+254712345678",
        { user_id := "+254712345678", current_state := .waitingForOtp,
          created_at := 0, last_activity := 50,
          phone_number := some "+254712345678", otp_sent_at := some 0 })]
      "+254712345678" "123456" { success := true, user_id := some "B1" } =
      ⟨false, .codeExpired,
        [("+254712345678",
          { user_id := "+254712345678", current_state := .initial,
            created_at := 0, last_activity := 400,
            phone_number := some "+254712345678", otp_sent_at := some 0 })],
        false⟩ := by
  rw [c4_expired_otp_resets_to_initial 400 0
    [("+254712345678",
      { user_id := "+254712345678", current_state := .waitingForOtp,
        created_at := 0, last_activity := 50,
        phone_number := some "+254712345678", otp_sent_at := some 0 })]
    "+254712345678" "123456" { success := true, user_id := some "B1" }
    { user_id := "+254712345678", current_state := .waitingForOtp,
      created_at := 0, last_activity := 50,
      phone_number := some "+254712345678", otp_sent_at := some 0 }
    rfl (by norm_num [isSessionExpired, sessionTimeout]) rfl rfl
    (by norm_num [otpTimeout]) rfl]
  rfl

/-- C7: a stored session older than `session_timeout` (24 hours) is treated
as absent by `get_or_create_session`: the expired entry is removed and a
fresh `INITIAL` session (no account id, not authenticated) is stored and
returned in its place, discarding whatever the prior session held. -/
theorem c7_expired_session_replaced :
    ∀ (now : ℚ) (st : SessionStore) (phone : String) (s : UserSession),
      sessionsGet st (cleanPhoneNumber phone) = some s →
      sessionTimeout < now - s.last_activity →
      getOrCreateSession now st phone =
        (freshSession (cleanPhoneNumber phone) now,
          sessionsSet (sessionsDel st (cleanPhoneNumber phone))
            (cleanPhoneNumber phone) (freshSession (cleanPhoneNumber phone) now)) ∧
      (freshSession (cleanPhoneNumber phone) now).current_state = .initial ∧
      (freshSession (cleanPhoneNumber phone) now).bitsacco_user_id = none ∧
      (freshSession (cleanPhoneNumber phone) now).is_authenticated = false ∧
      sessionsGet (getOrCreateSession now st phone).2 (cleanPhoneNumber phone) =
        some (freshSession (cleanPhoneNumber phone) now) := by
  intro now st phone s hget hexp
  have hexpb : isSessionExpired now s = true := by
    simp [isSessionExpired]; exact hexp
  have hmain : getOrCreateSession now st phone =
      (freshSession (cleanPhoneNumber phone) now,
        sessionsSet (sessionsDel st (cleanPhoneNumber phone))
          (cleanPhoneNumber phone) (freshSession (cleanPhoneNumber phone) now)) := by
    simp [getOrCreateSession, hget, hexpb]
  refine ⟨hmain, rfl, rfl, rfl, ?_⟩
  rw [hmain]
  exact sessionsGet_set_self _ _ _

/-- Witness for C7: an authenticated session last touched at time 0 is
discarded at time 100000; the lookup under the normalized phone returns a
fresh `INITIAL` session with no account identifier. -/
theorem c7_expired_session_replaced_witness :
    getOrCreateSession 100000
        [("+254712345678",
          { user_id := "+254712345678", current_state := .authenticated,
            created_at := 0, last_activity := 0,
            phone_number := some "+254712345678",
            bitsacco_user_id := some "B1", is_authenticated := true })]
        "0712345678" =
      (freshSession "+254712345678" 100000,
        sessionsSet
          (sessionsDel
            [("+254712345678",
              { user_id := "+254712345678", current_state := .authenticated,
                created_at := 0, last_activity := 0,
                phone_number := some "+254712345678",
                bitsacco_user_id := some "B1", is_authenticated := true })]
            "+254712345678")
          "+254712345678" (freshSession "+254712345678" 100000)) ∧
    sessionsGet
        (getOrCreateSession 100000
          [("+254712345678",
            { user_id := "+254712345678", current_state := .authenticated,
              created_at := 0, last_activity := 0,
              phone_number := some "+254712345678",
              bitsacco_user_id := some "B1", is_authenticated := true })]
          "0712345678").2 "+254712345678" =
      some (freshSession "+254712345678" 100000) := by
  have h := c7_expired_session_replaced 100000
    [("+254712345678",
      { user_id := "+254712345678", current_state := .authenticated,
        created_at := 0, last_activity := 0,
        phone_number := some "+254712345678",
        bitsacco_user_id := some "B1", is_authenticated := true })]
    "0712345678"
    { user_id := "+254712345678", current_state := .authenticated,
      created_at := 0, last_activity := 0,
      phone_number := some "+254712345678",
      bitsacco_user_id := some "B1", is_authenticated := true }
    rfl (by norm_num [sessionTimeout])
  exact ⟨h.1, h.2.2.2.2⟩

/-- C8: for an authenticated session, a `save` command whose parsed amount is
below 100 is rejected with the minimum-amount error and no savings API call,
one above 50000 with the maximum-amount error and no API call, and in both
cases the session object is returned unchanged (still authenticated); an
in-bounds amount whose upstream initiation succeeds produces the
confirmation carrying the returned transaction id. -/
theorem c8_save_amount_bounds :
    (∀ (s : WSession) (content : String) (resp : SaveApiResp) (amt : ℚ),
        s.state = "authenticated" →
        saveAmountOf content = some amt → amt < 100 →
        handleSaveCommand s content resp = ⟨s, [.minAmountError], false⟩) ∧
    (∀ (s : WSession) (content : String) (resp : SaveApiResp) (amt : ℚ),
        s.state = "authenticated" →
        saveAmountOf content = some amt → 50000 < amt →
        handleSaveCommand s content resp = ⟨s, [.maxAmountError], false⟩) ∧
    (∀ (s : WSession) (content : String) (resp : SaveApiResp) (amt : ℚ),
        s.state = "authenticated" →
        saveAmountOf content = some amt → 100 ≤ amt → amt ≤ 50000 →
        resp.success = true →
        handleSaveCommand s content resp =
          ⟨s, [.savingsInitiated amt s.phone_number resp.transaction_id],
            true⟩) := by
  refine ⟨?_, ?_, ?_⟩
  · intro s content resp amt _ hamt hlt
    simp [handleSaveCommand, hamt, hlt]
  · intro s content resp amt _ hamt hgt
    have h1 : ¬ amt < 100 := by linarith
    simp [handleSaveCommand, hamt, h1, hgt]
  · intro s content resp amt _ hamt hge hle hsucc
    have h1 : ¬ amt < 100 := not_lt.mpr hge
    have h2 : ¬ 50000 < amt := not_lt.mpr hle
    simp [handleSaveCommand, hamt, h1, h2, hsucc]

/-- Witness for C8: the two spec scenarios — `save 50` is rejected below the
minimum with no API call and the session untouched, and `save 1000` with a
successful upstream initiation confirms with the returned transaction id. -/
theorem c8_save_amount_bounds_witness :
    handleSaveCommand
        ⟨"chat8", "authenticated", 0, 0, some "+254712345678", some "B8"⟩
        "save 50" ⟨true, some "TX123", none⟩ =
      ⟨⟨"chat8", "authenticated", 0, 0, some "+254712345678", some "B8"⟩,
        [.minAmountError], false⟩ ∧
    handleSaveCommand
        ⟨"chat8", "authenticated", 0, 0, some "+254712345678", some "B8"⟩
        "save 1000" ⟨true, some "TX123", none⟩ =
      ⟨⟨"chat8", "authenticated", 0, 0, some "+254712345678", some "B8"⟩,
        [.savingsInitiated 1000 (some "+254712345678") (some "TX123")],
        true⟩ := by
  constructor
  · exact c8_save_amount_bounds.1
      ⟨"chat8", "authenticated", 0, 0, some "+254712345678", some "B8"⟩
      "save 50" ⟨true, some "TX123", none⟩ 50 rfl (by decide) (by norm_num)
  · exact c8_save_amount_bounds.2.2
      ⟨"chat8", "authenticated", 0, 0, some "+254712345678", some "B8"⟩
      "save 1000" ⟨true, some "TX123", none⟩ 1000 rfl (by decide)
      (by norm_num) (by norm_num) rfl

end Bitsacco
